import Mathlib

/-!
Verification of the checkout/payment core of the `uniuni` storefront
(`server/routes/payment.js`): the `POST /create-order`, `POST /verify` and
`POST /manual` route handlers, shallowly embedded over an explicit store
state (products and orders).  JavaScript numbers are modelled as `ℚ`
(`NaN`/`undefined` appear through `Option`/a small value type where the
source can receive them), machine-level hashing (`crypto.createHmac`) is
embedded as an executable HMAC-SHA-256 over UTF-8 bytes.
-/

namespace Uni

/-! ## SHA-256 and HMAC-SHA-256, executable over byte lists

Embeds Node's `crypto.createHmac('sha256', key).update(msg).digest('hex')`
(payment.js lines 165-168).  Bytes and 32-bit words are `Nat` with explicit
`% 2^32` truncation where overflow matters. -/

/-- Truncate to a 32-bit word. -/
def u32 (n : Nat) : Nat := n % 4294967296

/-- Rotate a 32-bit word right by `n`. -/
def rotr (n x : Nat) : Nat := u32 ((x >>> n) ||| (x <<< (32 - n)))

/-- SHA-256 Σ₀. -/
def bSig0 (x : Nat) : Nat := (rotr 2 x) ^^^ (rotr 13 x) ^^^ (rotr 22 x)

/-- SHA-256 Σ₁. -/
def bSig1 (x : Nat) : Nat := (rotr 6 x) ^^^ (rotr 11 x) ^^^ (rotr 25 x)

/-- SHA-256 σ₀. -/
def sSig0 (x : Nat) : Nat := (rotr 7 x) ^^^ (rotr 18 x) ^^^ (x >>> 3)

/-- SHA-256 σ₁. -/
def sSig1 (x : Nat) : Nat := (rotr 17 x) ^^^ (rotr 19 x) ^^^ (x >>> 10)

/-- SHA-256 choice function. -/
def chF (x y z : Nat) : Nat := (x &&& y) ^^^ ((x ^^^ 4294967295) &&& z)

/-- SHA-256 majority function. -/
def majF (x y z : Nat) : Nat := (x &&& y) ^^^ (x &&& z) ^^^ (y &&& z)

/-- The 64 SHA-256 round constants (FIPS 180-4, written in decimal). -/
def shaK : Array Nat := #[
  1116352408, 1899447441, 3049323471, 3921009573, 961987163, 1508970993,
  2453635748, 2870763221, 3624381080, 310598401, 607225278, 1426881987,
  1925078388, 2162078206, 2614888103, 3248222580, 3835390401, 4022224774,
  264347078, 604807628, 770255983, 1249150122, 1555081692, 1996064986,
  2554220882, 2821834349, 2952996808, 3210313671, 3336571891, 3584528711,
  113926993, 338241895, 666307205, 773529912, 1294757372, 1396182291,
  1695183700, 1986661051, 2177026350, 2456956037, 2730485921, 2820302411,
  3259730800, 3345764771, 3516065817, 3600352804, 4094571909, 275423344,
  430227734, 506948616, 659060556, 883997877, 958139571, 1322822218,
  1537002063, 1747873779, 1955562222, 2024104815, 2227730452, 2361852424,
  2428436474, 2756734187, 3204031479, 3329325298]

/-- SHA-256 initial hash state (FIPS 180-4, written in decimal). -/
def shaH0 : Array Nat := #[
  1779033703, 3144134277, 1013904242, 2773480762,
  1359893119, 2600822924, 528734635, 1541459225]

/-- Big-endian 64-bit encoding of a length in bits. -/
def be64 (n : Nat) : List Nat :=
  [u32 (n >>> 56) % 256, (n >>> 48) % 256, (n >>> 40) % 256, (n >>> 32) % 256,
   (n >>> 24) % 256, (n >>> 16) % 256, (n >>> 8) % 256, n % 256]

/-- SHA-256 padding: append `0x80`, zeros, and the 64-bit big-endian bit
length, reaching a multiple of 64 bytes. -/
def shaPad (msg : List Nat) : List Nat :=
  let l := msg.length
  let zeros := (64 - ((l + 9) % 64)) % 64
  msg ++ 0x80 :: List.replicate zeros 0 ++ be64 (8 * l)

/-- Split a byte list into 64-byte blocks, with structural fuel so the
kernel can evaluate it (the fuel is the byte count, always enough since
every step consumes 64 bytes). -/
def toBlocksF : Nat → List Nat → List (List Nat)
  | 0, _ => []
  | fuel+1, bs => if bs = [] then [] else bs.take 64 :: toBlocksF fuel (bs.drop 64)

/-- Split a byte list into 64-byte blocks. -/
def toBlocks (bs : List Nat) : List (List Nat) := toBlocksF bs.length bs

/-- The 16 initial 32-bit message-schedule words of one block (big-endian). -/
def blockWords (b : List Nat) : Array Nat :=
  (List.range 16).foldl
    (fun a i =>
      a.push ((b.getD (4*i) 0) <<< 24 ||| (b.getD (4*i+1) 0) <<< 16 |||
              (b.getD (4*i+2) 0) <<< 8 ||| (b.getD (4*i+3) 0)))
    #[]

/-- Extend the 16 schedule words to 64. -/
def schedule (w : Array Nat) : Array Nat :=
  (List.range 48).foldl
    (fun w i =>
      w.push (u32 (sSig1 (w.getD (i+14) 0) + w.getD (i+9) 0 +
                   sSig0 (w.getD (i+1) 0) + w.getD i 0)))
    w

/-- One SHA-256 compression round state. -/
structure ShaState where
  a : Nat
  b : Nat
  c : Nat
  d : Nat
  e : Nat
  f : Nat
  g : Nat
  h : Nat

/-- One compression round. -/
def shaRound (w : Array Nat) (st : ShaState) (i : Nat) : ShaState :=
  let t1 := u32 (st.h + bSig1 st.e + chF st.e st.f st.g + shaK.getD i 0 + w.getD i 0)
  let t2 := u32 (bSig0 st.a + majF st.a st.b st.c)
  ⟨u32 (t1 + t2), st.a, st.b, st.c, u32 (st.d + t1), st.e, st.f, st.g⟩

/-- Compress one 64-byte block into the running hash. -/
def compressBlock (h : Array Nat) (b : List Nat) : Array Nat :=
  let w := schedule (blockWords b)
  let st0 : ShaState :=
    ⟨h.getD 0 0, h.getD 1 0, h.getD 2 0, h.getD 3 0,
     h.getD 4 0, h.getD 5 0, h.getD 6 0, h.getD 7 0⟩
  let st := (List.range 64).foldl (shaRound w) st0
  #[u32 (h.getD 0 0 + st.a), u32 (h.getD 1 0 + st.b), u32 (h.getD 2 0 + st.c),
    u32 (h.getD 3 0 + st.d), u32 (h.getD 4 0 + st.e), u32 (h.getD 5 0 + st.f),
    u32 (h.getD 6 0 + st.g), u32 (h.getD 7 0 + st.h)]

/-- Big-endian bytes of a 32-bit word. -/
def wordBytes (x : Nat) : List Nat := [(x >>> 24) % 256, (x >>> 16) % 256, (x >>> 8) % 256, x % 256]

/-- SHA-256 of a byte list, as 32 digest bytes. -/
def sha256 (msg : List Nat) : List Nat :=
  let h := (toBlocks (shaPad msg)).foldl compressBlock shaH0
  (h.toList.map wordBytes).flatten

/-- HMAC-SHA-256 over byte lists (RFC 2104). -/
def hmacSha256 (key msg : List Nat) : List Nat :=
  let k0 := if key.length > 64 then sha256 key else key
  let kPad := k0 ++ List.replicate (64 - k0.length) 0
  let ipad := kPad.map (· ^^^ 0x36)
  let opad := kPad.map (· ^^^ 0x5c)
  sha256 (opad ++ sha256 (ipad ++ msg))

/-- UTF-8 encoding of one character, as bytes. -/
def utf8Bytes (c : Char) : List Nat :=
  let n := c.toNat
  if n < 0x80 then [n]
  else if n < 0x800 then [0xc0 ||| (n >>> 6), 0x80 ||| (n &&& 0x3f)]
  else if n < 0x10000 then
    [0xe0 ||| (n >>> 12), 0x80 ||| ((n >>> 6) &&& 0x3f), 0x80 ||| (n &&& 0x3f)]
  else
    [0xf0 ||| (n >>> 18), 0x80 ||| ((n >>> 12) &&& 0x3f),
     0x80 ||| ((n >>> 6) &&& 0x3f), 0x80 ||| (n &&& 0x3f)]

/-- UTF-8 bytes of a string. -/
def strBytes (s : String) : List Nat := s.data.foldr (fun c acc => utf8Bytes c ++ acc) []

/-- Lower-case hex digit of a value below 16. -/
def hexDigit (n : Nat) : Char := if n < 10 then Char.ofNat (48 + n) else Char.ofNat (87 + n)

/-- Lower-case hex rendering of a byte list, two digits per byte. -/
def hexOfBytes (bs : List Nat) : String :=
  ⟨bs.foldr (fun b acc => hexDigit ((b >>> 4) % 16) :: hexDigit (b % 16) :: acc) []⟩

/-- Node's `crypto.createHmac('sha256', key).update(msg).digest('hex')`. -/
def hmacSha256Hex (key msg : String) : String :=
  hexOfBytes (hmacSha256 (strBytes key) (strBytes msg))

/-! ## JavaScript value semantics

The request bodies are JSON; the fields the routes inspect are modelled
with explicit truthiness.  Numbers are `ℚ`; `NaN` and `undefined` appear
through `Option`/`JSVal` where the source can receive them.  String-typed
optional fields are `Option String` (`none` = absent/`undefined`; the empty
string is the one falsy present string). -/

/-- A JavaScript value as it can arrive in an item's `qty` field:
a number, `NaN`, `undefined` (absent), `null`, or a boolean. -/
inductive JSVal where
  | num (q : ℚ)
  | nan
  | undef
  | jnull
  | jbool (b : Bool)
deriving DecidableEq, Repr

/-- JavaScript truthiness of a `JSVal` (`0`, `NaN`, `undefined`, `null`,
`false` are falsy). -/
def truthy : JSVal → Bool
  | .num q => q != 0
  | .jbool b => b
  | _ => false

/-- JavaScript `Number(v)`: `none` is `NaN`. -/
def toNumber : JSVal → Option ℚ
  | .num q => some q
  | .nan => none
  | .undef => none
  | .jnull => some 0
  | .jbool b => some (if b then 1 else 0)

/-- JavaScript `a || b` on `JSVal`s. -/
def jsOrV (a b : JSVal) : JSVal := if truthy a then a else b

/-- `Number(item.qty || 1)` (payment.js lines 204, 220, 335, 351).  In this
value domain the result is never `NaN` (every falsy value takes the literal
`1`, and the truthy values `num q` and `true` convert to numbers), so the
`getD` default is unreachable. -/
def reqQty (v : JSVal) : ℚ := (toNumber (jsOrV v (.num 1))).getD 0

/-- JavaScript truthiness of an optional string field. -/
def isTruthyS : Option String → Bool
  | some s => s ≠ ""
  | none => false

/-- JavaScript `a || b` on optional strings. -/
def jsOrS (a b : Option String) : Option String :=
  match a with
  | some s => if s = "" then b else some s
  | none => b

/-- JavaScript `a || d` on an optional string with a string default. -/
def jsOrSD (a : Option String) (d : String) : String :=
  match a with
  | some s => if s = "" then d else s
  | none => d

/-- JavaScript `s.trim()`: strip leading and trailing whitespace. -/
def jsTrim (s : String) : String :=
  ⟨((s.data.dropWhile Char.isWhitespace).reverse.dropWhile Char.isWhitespace).reverse⟩

/-- The check `!x || typeof x !== 'string' || !x.trim()` (payment.js
lines 127, 134, 141, 296): present, a string, and non-blank after trim. -/
def strOk : Option String → Bool
  | some s => jsTrim s ≠ ""
  | none => false

/-- The pincode test `/^\d{4,8}$/.test(String(pincode))` (payment.js
lines 186, 317): four to eight characters, all decimal digits. -/
def matchesPin (s : String) : Bool :=
  4 ≤ s.length && s.length ≤ 8 && s.data.all (·.isDigit)

/-- JavaScript `Math.round` on a finite number: half-up toward `+∞`. -/
def jsRound (a : ℚ) : ℤ := ⌊a + 1/2⌋

/-- `product.stock || 0` (payment.js lines 219, 350) on a number-valued
`stock`. -/
def jsOrQ0 (q : ℚ) : ℚ := if q = 0 then 0 else q

/-! ## Data model

The store state the routes read and mutate: `Product` documents (flat
`stock` or per-size `sizeInventory`) and persisted `Order` records. -/

/-- One entry of a product's `sizeInventory` array. -/
structure SizeEntry where
  code : String
  qty : ℚ
deriving DecidableEq, Repr

/-- A `Product` document as the routes use it. -/
structure Product where
  id : String
  title : String
  trackInventoryBySize : Bool
  sizeInventory : List SizeEntry
  stock : ℚ
deriving DecidableEq, Repr

/-- One line item of the request's `items` array. -/
structure Item where
  id : Option String
  productId : Option String
  title : String
  qty : JSVal
  size : Option String
deriving DecidableEq, Repr

/-- An `Order` record as the two order-creating routes persist it. -/
structure OrderRec where
  userId : String
  name : Option String
  phone : Option String
  address : Option String
  city : Option String
  state : Option String
  pincode : Option String
  paymentMethod : String
  items : List Item
  total : Option ℚ
  status : String
  upiTxnId : Option String
  upiPayerName : Option String
deriving DecidableEq, Repr

/-- The authenticated `req.user` profile used for shipping-field defaults. -/
structure User where
  id : String
  name : Option String
  phone : Option String
  address1 : Option String
  city : Option String
  state : Option String
  pincode : Option String
deriving DecidableEq, Repr

/-- The store state: product documents and persisted orders. -/
structure St where
  products : List Product
  orders : List OrderRec
deriving DecidableEq, Repr

/-- Gateway credential configuration: environment variables
(`RAZORPAY_KEY_ID`, `RAZORPAY_KEY_SECRET`) and the SiteSetting fallbacks. -/
structure Config where
  envKeyId : Option String
  envKeySecret : Option String
  dbKeyId : Option String
  dbKeySecret : Option String
deriving DecidableEq, Repr

/-- `getRazorpayInstance` succeeds: env-first, settings-record fallback,
both a key id and a key secret resolved truthy (payment.js lines 11-28). -/
def razorpayConfigured (c : Config) : Bool :=
  isTruthyS (jsOrS c.envKeyId c.dbKeyId) && isTruthyS (jsOrS c.envKeySecret c.dbKeySecret)

/-- The secret `/verify` signs with: `getRazorpayInstance()` must succeed
and `process.env.RAZORPAY_KEY_SECRET` must be truthy (payment.js
lines 149-162); on success that env secret is used. -/
def verifyKeySecret (c : Config) : Option String :=
  if razorpayConfigured c then
    match c.envKeySecret with
    | some s => if s = "" then none else some s
    | none => none
  else none

/-! ## The per-item inventory decrement

Payment.js lines 194-234 (`/verify`) and 325-365 (`/manual`) run the same
loop verbatim; it is embedded once.  `Array.isArray(product.sizeInventory)`
is always true in this model (the field is a list). -/

/-- `item.id || item.productId`, then the truthiness test
`if (item.id || item.productId)` (payment.js lines 196-197). -/
def pidOf (it : Item) : Option String :=
  match jsOrS it.id it.productId with
  | some s => if s = "" then none else some s
  | none => none

/-- `Product.findById` over the store. -/
def findProduct (ps : List Product) (pid : String) : Option Product :=
  ps.find? (fun p => p.id == pid)

/-- Persist a mutated document: replace the first product with its id
(`product.save()`). -/
def setById : List Product → Product → List Product
  | [], _ => []
  | p :: ps, q => if p.id == q.id then q :: ps else p :: setById ps q

/-- `product.sizeInventory.findIndex(s => s.code === item.size)`, as an
optional index instead of `-1`. -/
def sizeIdx (l : List SizeEntry) (sz : String) : Option Nat :=
  l.findIdx? (fun e => e.code == sz)

/-- Outcome of processing one line item: the updated products, or the 409
payload (message, `itemId`, `availableQty`). -/
inductive StepRes where
  | ok (ps : List Product)
  | fail (message : String) (itemId : String) (availableQty : ℚ)
deriving DecidableEq, Repr

/-- One iteration of the decrement loop (payment.js lines 195-233 = 326-364).
The `getD` defaults on the size entry are unreachable: `sizeIdx` returned a
valid index. -/
def stepItem (ps : List Product) (it : Item) : StepRes :=
  match pidOf it with
  | none => .ok ps
  | some pid =>
    match findProduct ps pid with
    | none => .ok ps
    | some p =>
      if p.trackInventoryBySize && isTruthyS it.size then
        match sizeIdx p.sizeInventory (it.size.getD "") with
        | none => .ok ps
        | some i =>
          if (p.sizeInventory.getD i ⟨"", 0⟩).qty < reqQty it.qty then
            .fail ("Insufficient stock for " ++ p.title ++ " size " ++ it.size.getD "")
              pid (p.sizeInventory.getD i ⟨"", 0⟩).qty
          else
            .ok (setById ps
              { p with sizeInventory :=
                  (p.sizeInventory.set i
                    ⟨(p.sizeInventory.getD i ⟨"", 0⟩).code,
                     (p.sizeInventory.getD i ⟨"", 0⟩).qty - reqQty it.qty⟩) })
      else if !p.trackInventoryBySize then
        if jsOrQ0 p.stock < reqQty it.qty then
          .fail ("Insufficient stock for " ++ p.title) pid (jsOrQ0 p.stock)
        else
          .ok (setById ps { p with stock := p.stock - reqQty it.qty })
      else .ok ps

/-- Outcome of the whole decrement loop.  A failure carries the store as it
stood when the failing item was reached: decrements already persisted for
earlier items are part of it. -/
inductive DecRes where
  | ok (ps : List Product)
  | fail (message : String) (itemId : String) (availableQty : ℚ) (ps : List Product)
deriving DecidableEq, Repr

/-- The decrement loop over the item list. -/
def decrementItems (ps : List Product) : List Item → DecRes
  | [] => .ok ps
  | it :: rest =>
    match stepItem ps it with
    | .ok ps2 => decrementItems ps2 rest
    | .fail m iid q => .fail m iid q ps

/-! ## The three route handlers -/

/-- Response of `POST /create-order`. -/
inductive CResp where
  | badReq (message : String)
  | srvErr (message : String)
  | gwErr (message : String)
  | ok (orderId : String) (amount : ℚ) (currency : String) (keyId : String)
deriving DecidableEq, Repr

/-- HTTP status of a `/create-order` response. -/
def CResp.status : CResp → Nat
  | .badReq _ => 400
  | .srvErr _ => 500
  | .gwErr _ => 502
  | .ok .. => 200

/-- The `data.amount` field of a successful `/create-order` response. -/
def CResp.amountData : CResp → Option ℚ
  | .ok _ a _ _ => some a
  | _ => none

/-- The `data.orderId` field of a successful `/create-order` response. -/
def CResp.orderIdData : CResp → Option String
  | .ok oid _ _ _ => some oid
  | _ => none

/-- Body of `POST /create-order`.  `amount` is the value of
`parseFloat(amount)`: `none` models a non-finite parse (`NaN`/`±Infinity`),
which `Number.isFinite` rejects.  `appliedCoupon` only annotates the
provider metadata and carries no local effect. -/
structure CreateBody where
  amount : Option ℚ
  currency : Option String
  items : List Item
deriving DecidableEq, Repr

/-- Outcome of the external `rzp.orders.create` call: threw, or returned a
response whose `id`/`currency` fields may be absent. -/
inductive ProviderOut where
  | fail
  | ok (id : Option String) (currency : Option String)
deriving DecidableEq, Repr

/-- `POST /create-order` (payment.js lines 31-119).  Reads no store state
and writes none: the state is returned unchanged on every path. -/
def createOrderRoute (c : Config) (pr : ProviderOut) (b : CreateBody) (s : St) :
    CResp × St :=
  (match b.amount with
   | none => .badReq "Invalid amount provided"
   | some a =>
     if a ≤ 0 then .badReq "Invalid amount provided"
     else if b.items = [] then .badReq "No items in order"
     else if ¬ razorpayConfigured c then
       .srvErr "Razorpay is not properly configured on the server"
     else
       let paise : ℤ := jsRound a
       if paise ≤ 0 then .badReq "Amount must be greater than zero"
       else
         match pr with
         | .fail => .gwErr "Failed to create order with payment provider"
         | .ok none _ => .gwErr "Invalid response from payment provider"
         | .ok (some oid) cur =>
           if oid = "" then .gwErr "Invalid response from payment provider"
           else
             match c.envKeyId with
             | none => .srvErr "Payment gateway configuration incomplete"
             | some k =>
               if k = "" then .srvErr "Payment gateway configuration incomplete"
               else .ok oid (paise : ℚ) (jsOrSD cur "INR") k
   , s)

/-- Response of `POST /verify`. -/
inductive VResp where
  | badReq (message : String)
  | srvErr (message : String)
  | stockConflict (message : String) (itemId : String) (availableQty : ℚ)
  | okOrder (message : String) (order : OrderRec)
  | okVerified (message : String)
deriving DecidableEq, Repr

/-- HTTP status of a `/verify` response. -/
def VResp.status : VResp → Nat
  | .badReq _ => 400
  | .srvErr _ => 500
  | .stockConflict .. => 409
  | .okOrder .. => 200
  | .okVerified _ => 200

/-- Body of `POST /verify`.  A non-array or absent `items` is the empty
list (the source guards with `items && Array.isArray(items) &&
items.length > 0`). -/
structure VerifyBody where
  razorpayOrderId : Option String
  razorpayPaymentId : Option String
  razorpaySignature : Option String
  items : List Item
  total : Option ℚ
  name : Option String
  phone : Option String
  address : Option String
  city : Option String
  state : Option String
  pincode : Option String
deriving DecidableEq, Repr

/-- `POST /verify` (payment.js lines 122-289).  Confirmation email dispatch
is an external sink with no store effect and is not modelled. -/
def verifyRoute (c : Config) (u : User) (b : VerifyBody) (s : St) : VResp × St :=
  if ¬ strOk b.razorpayOrderId then (.badReq "Missing or invalid Razorpay order ID", s)
  else if ¬ strOk b.razorpayPaymentId then
    (.badReq "Missing or invalid Razorpay payment ID", s)
  else if ¬ strOk b.razorpaySignature then
    (.badReq "Missing or invalid payment signature", s)
  else
    match verifyKeySecret c with
    | none => (.srvErr "Payment verification system not configured", s)
    | some sec =>
      let oid := b.razorpayOrderId.getD ""
      let pid := b.razorpayPaymentId.getD ""
      let generated := hmacSha256Hex sec (oid ++ "|" ++ pid)
      if generated ≠ b.razorpaySignature.getD "" then
        (.badReq "Invalid payment signature", s)
      else if b.items ≠ [] then
        if ¬ (isTruthyS b.city && isTruthyS b.state && isTruthyS b.pincode) then
          (.badReq "City, state, and pincode are required", s)
        else if ¬ matchesPin (b.pincode.getD "") then (.badReq "Invalid pincode", s)
        else
          match decrementItems s.products b.items with
          | .fail m iid q ps => (.stockConflict m iid q, { s with products := ps })
          | .ok ps =>
            let order : OrderRec :=
              { userId := u.id
                name := jsOrS b.name u.name
                phone := jsOrS b.phone u.phone
                address := jsOrS b.address u.address1
                city := jsOrS b.city u.city
                state := jsOrS b.state u.state
                pincode := jsOrS b.pincode u.pincode
                paymentMethod := "Razorpay"
                items := b.items
                total := some (b.total.getD 0)
                status := "paid"
                upiTxnId := none
                upiPayerName := none }
            (.okOrder "Payment verified successfully" order,
             { products := ps, orders := s.orders ++ [order] })
      else (.okVerified "Payment verified successfully", s)

/-- Response of `POST /manual`. -/
inductive MResp where
  | badReq (message : String)
  | stockConflict (message : String) (itemId : String) (availableQty : ℚ)
  | okOrder (message : String) (order : OrderRec)
deriving DecidableEq, Repr

/-- HTTP status of a `/manual` response. -/
def MResp.status : MResp → Nat
  | .badReq _ => 400
  | .stockConflict .. => 409
  | .okOrder .. => 200

/-- Body of `POST /manual`. -/
structure ManualBody where
  transactionId : Option String
  amount : Option ℚ
  paymentMethod : Option String
  items : List Item
  name : Option String
  phone : Option String
  address : Option String
  city : Option String
  state : Option String
  pincode : Option String
deriving DecidableEq, Repr

/-- `POST /manual` (payment.js lines 292-409).  No gateway interaction;
email dispatch is an external sink and is not modelled. -/
def manualRoute (u : User) (b : ManualBody) (s : St) : MResp × St :=
  if ¬ strOk b.transactionId then (.badReq "Transaction ID is required", s)
  else if b.items = [] then (.badReq "No items in order", s)
  else if ¬ (isTruthyS b.city && isTruthyS b.state && isTruthyS b.pincode) then
    (.badReq "City, state, and pincode are required", s)
  else if ¬ matchesPin (b.pincode.getD "") then (.badReq "Invalid pincode", s)
  else
    match decrementItems s.products b.items with
    | .fail m iid q ps => (.stockConflict m iid q, { s with products := ps })
    | .ok ps =>
      let order : OrderRec :=
        { userId := u.id
          name := jsOrS b.name u.name
          phone := jsOrS b.phone u.phone
          address := jsOrS b.address u.address1
          city := jsOrS b.city u.city
          state := jsOrS b.state u.state
          pincode := jsOrS b.pincode u.pincode
          paymentMethod := jsOrSD b.paymentMethod "UPI"
          items := b.items
          total := b.amount
          status := "pending"
          upiTxnId := some (jsTrim (b.transactionId.getD ""))
          upiPayerName := some (jsOrSD u.name "") }
      (.okOrder "Order created successfully. Your payment is pending verification." order,
       { products := ps, orders := s.orders ++ [order] })

/-! ## Spec-side status table and concrete fixtures -/

/-- The spec's error table for `requestGatewayOrder` (§4.2, claim C5), as a
status function to compare the route against: invalid or non-positive amount
400, empty items 400, gateway misconfigured 500 (whether the credential pair
or the env key id for the client is missing), remote creation failure 502,
remote response lacking an identifier 502, otherwise success.  Where the
table is silent on precedence the order of the checks in the route is
used. -/
def specCreateOrderStatus (c : Config) (pr : ProviderOut) (b : CreateBody) : Nat :=
  match b.amount with
  | none => 400
  | some a =>
    if a ≤ 0 then 400
    else if b.items = [] then 400
    else if ¬ razorpayConfigured c then 500
    else if jsRound a ≤ 0 then 400
    else
      match pr with
      | .fail => 502
      | .ok id _ =>
        if ¬ isTruthyS id then 502
        else if ¬ isTruthyS c.envKeyId then 500
        else 200

/-- A fully env-configured gateway. -/
def cfg1 : Config := ⟨some "rzp_key", some "rzp_secret", none, none⟩

/-- A concrete authenticated user. -/
def user1 : User := ⟨"u1", some "Asha", none, none, none, none, none⟩

/-- A line item: two units of product `P1`. -/
def itemT : Item := ⟨some "P1", none, "Tee", .num 2, none⟩

/-- Flat-stock product `P1` with five in stock. -/
def prodT : Product := ⟨"P1", "Tee", false, [], 5⟩

/-- Flat-stock product `P2` with one in stock. -/
def prodC : Product := ⟨"P2", "Cap", false, [], 1⟩

/-- A store holding `P1` and `P2` and no orders. -/
def st1 : St := ⟨[prodT, prodC], []⟩

/-- A provider outcome carrying an identifier. -/
def prOk : ProviderOut := .ok (some "ord_1") (some "INR")

/-- The hex HMAC-SHA-256 digest of the message composed from order id
`oid` and payment id `pid` under the secret of `cfg1` (checked below in
`hmac_sig_lit`). -/
def sigLit : String := "b436785de8dc84ce1c475786622e1007f4d2e666ae4d90f6af2ca3492460fca6"

/-- A `/verify` body with correct signature and no item payload. -/
def vbPure : VerifyBody :=
  ⟨some "oid", some "pid", some sigLit, [], none, none, none, none, none, none, none⟩

/-- A line item asking for ten units of `P2` (stock one). -/
def itemBad : Item := ⟨some "P2", none, "Cap", .num 10, none⟩

/-- `P1` after two units were taken. -/
def prodT3 : Product := ⟨"P1", "Tee", false, [], 3⟩

/-- Flat-stock product `PZ` with zero stock. -/
def prodZ : Product := ⟨"PZ", "Zed", false, [], 0⟩

/-- A line item for `PZ` with `qty: 0`. -/
def itemZ : Item := ⟨some "PZ", none, "Zed", .num 0, none⟩

/-- A valid `/manual` body holding only the `qty: 0` item. -/
def mbZ : ManualBody :=
  ⟨some "TXN1", some 100, none, [itemZ], none, none, none,
   some "Pune", some "MH", some "411001"⟩

/-- Flat-stock product `PQ` with two in stock. -/
def prodQ2 : Product := ⟨"PQ", "Bag", false, [], 2⟩

/-- A line item asking exactly the stock of `PQ`. -/
def itemE2 : Item := ⟨some "PQ", none, "Bag", .num 2, none⟩

/-- A line item asking one more than the stock of `PQ`. -/
def itemO3 : Item := ⟨some "PQ", none, "Bag", .num 3, none⟩

/-- A store holding only `PQ`. -/
def stQ : St := ⟨[prodQ2], []⟩

/-- A gateway-valid `/verify` body (items filled in per scenario). -/
def vbBase : VerifyBody :=
  ⟨some "oid", some "pid", some sigLit, [], some 250, none, none, none,
   some "Pune", some "MH", some "411001"⟩

/-- A valid `/manual` body (items filled in per scenario). -/
def mbBase : ManualBody :=
  ⟨some "TXN1", some 250, none, [], none, none, none,
   some "Pune", some "MH", some "411001"⟩

/-- Per-size product `PS` tracking sizes `M` and `L`. -/
def prodS : Product := ⟨"PS", "Shirt", true, [⟨"M", 4⟩, ⟨"L", 2⟩], 0⟩

/-- An item for `PS` that names no size. -/
def itemNoSize : Item := ⟨some "PS", none, "Shirt", .num 1, none⟩

/-- An item for `PS` naming a size code `PS` does not carry. -/
def itemBadSize : Item := ⟨some "PS", none, "Shirt", .num 1, some "XXL"⟩


/-! ## The stored-quantity invariant (claim C8) -/

/-- A well-formed stored quantity: a non-negative integer value. -/
def GoodQ (q : ℚ) : Prop := q.den = 1 ∧ 0 ≤ q

instance (q : ℚ) : Decidable (GoodQ q) :=
  inferInstanceAs (Decidable (q.den = 1 ∧ 0 ≤ q))

/-- Every quantity the product stores — flat stock and each per-size
qty — is a non-negative integer. -/
def GoodProduct (p : Product) : Prop :=
  GoodQ p.stock ∧ ∀ e ∈ p.sizeInventory, GoodQ e.qty

instance (p : Product) : Decidable (GoodProduct p) :=
  inferInstanceAs (Decidable (GoodQ p.stock ∧ ∀ e ∈ p.sizeInventory, GoodQ e.qty))

/-- The store-wide invariant: every product is well-formed. -/
def GoodPs (ps : List Product) : Prop := ∀ p ∈ ps, GoodProduct p

instance (ps : List Product) : Decidable (GoodPs ps) :=
  inferInstanceAs (Decidable (∀ p ∈ ps, GoodProduct p))

/-- An integer-valued `qty` field: the number it carries, when it carries
one, is an integer (absent and other non-number values are unrestricted —
they all take the default quantity one). -/
def qtyIntV : JSVal → Prop
  | .num q => q.den = 1
  | _ => True

instance (v : JSVal) : Decidable (qtyIntV v) := by
  unfold qtyIntV
  cases v <;> infer_instance

/-- The store as the decrement loop leaves it, on success or failure. -/
def decResState : DecRes → List Product
  | .ok ps => ps
  | .fail _ _ _ ps => ps

/-- A line item asking for half a unit of `P1`. -/
def itemHalf : Item := ⟨some "P1", none, "Tee", .num (1/2), none⟩

/-- A valid `/manual` body holding only the half-unit item. -/
def mbHalf : ManualBody :=
  ⟨some "TXN1", some 100, none, [itemHalf], none, none, none,
   some "Pune", some "MH", some "411001"⟩

/-! ## Helper lemmas -/

attribute [local semireducible] Rat.sub Rat.add Rat.mul Rat.inv

set_option maxRecDepth 1000000 in
/-- The digest literal `sigLit` is the HMAC the `/verify` route recomputes
for order id `oid`, payment id `pid` under the secret of `cfg1`. -/
theorem hmac_sig_lit : hmacSha256Hex "rzp_secret" ("oid" ++ "|" ++ "pid") = sigLit := by
  decide

/-- `product.stock || 0` is the stock itself on number-valued stock. -/
theorem jsOrQ0_eq (q : ℚ) : jsOrQ0 q = q := by
  unfold jsOrQ0; split <;> simp_all

/-- A falsy `qty` takes the default `1` in `Number(item.qty || 1)`. -/
theorem reqQty_falsy {v : JSVal} (h : truthy v = false) : reqQty v = 1 := by
  cases v <;> simp_all [truthy, reqQty, jsOrV, toNumber]

/-- A truthy numeric `qty` converts to itself in `Number(item.qty || 1)`. -/
theorem reqQty_num {q : ℚ} (h : q ≠ 0) : reqQty (.num q) = q := by
  simp [reqQty, jsOrV, truthy, toNumber, h]

/-- The per-item step on a flat-stock product it resolves: compare
`stock || 0` with the requested quantity, then 409 payload or decrement. -/
theorem stepItem_flat {ps : List Product} {it : Item} {pid : String} {p : Product}
    (hpid : pidOf it = some pid)
    (hfind : findProduct ps pid = some p)
    (htrack : p.trackInventoryBySize = false) :
    stepItem ps it =
      if jsOrQ0 p.stock < reqQty it.qty then
        .fail ("Insufficient stock for " ++ p.title) pid (jsOrQ0 p.stock)
      else .ok (setById ps { p with stock := p.stock - reqQty it.qty }) := by
  simp only [stepItem, hpid, hfind, htrack]
  simp

/-! ## C1 — create-order amount echo -/

/-- Claim C1 as stated is false: the finite positive amount `1/2`, with
configured credentials and a provider response carrying an identifier,
yields a successful response whose amount is `Math.round(1/2) = 1`, not the
input `1/2` — the route does transform the amount. -/
theorem create_order_half_amount_not_echoed :
    (createOrderRoute cfg1 prOk ⟨some (1/2), none, [itemT]⟩ st1).1.status = 200 ∧
    (createOrderRoute cfg1 prOk ⟨some (1/2), none, [itemT]⟩ st1).1.amountData = some 1 ∧
    (createOrderRoute cfg1 prOk ⟨some (1/2), none, [itemT]⟩ st1).1.amountData ≠
      some (1/2 : ℚ) := by
  decide

/-- C1 (amended): with an environment-configured key id, a resolvable key
secret, a non-empty item list and a provider response carrying an
identifier, any amount whose `Math.round` is positive succeeds, returning
the provider id and `Math.round(amount)` as the amount — which is the input
amount exactly whenever that input is an integer.  No state is mutated. -/
theorem create_order_success_echoes_rounded
    (c : Config) (k oid : String) (cur : Option String) (b : CreateBody) (s : St) (a : ℚ)
    (hk : c.envKeyId = some k) (hk0 : k ≠ "")
    (hsec : isTruthyS (jsOrS c.envKeySecret c.dbKeySecret) = true)
    (ha : b.amount = some a) (hround : 0 < jsRound a) (hitems : b.items ≠ [])
    (hoid : oid ≠ "") :
    (createOrderRoute c (.ok (some oid) cur) b s).1 =
      .ok oid ((jsRound a : ℤ) : ℚ) (jsOrSD cur "INR") k ∧
    (createOrderRoute c (.ok (some oid) cur) b s).2 = s ∧
    (a.den = 1 → ((jsRound a : ℤ) : ℚ) = a) := by
  have hhalf : (1 : ℚ) ≤ a + 1/2 := by
    have := Int.floor_pos.mp hround
    simpa [jsRound] using this
  have hpos : ¬ a ≤ 0 := by intro h; linarith
  have hconf : razorpayConfigured c = true := by
    unfold razorpayConfigured
    rw [hk, hsec]
    simp [jsOrS, hk0, isTruthyS]
  have hnr : ¬ jsRound a ≤ 0 := by omega
  refine ⟨?_, rfl, ?_⟩
  · unfold createOrderRoute
    rw [ha]
    simp [hpos, hitems, hconf, hnr, hoid, hk, hk0]
  · intro hden
    have hnum : ((a.num : ℤ) : ℚ) = a := (Rat.den_eq_one_iff a).mp hden
    have : jsRound a = a.num := by
      rw [jsRound, ← hnum, Int.floor_int_add]
      norm_num
    rw [this, hnum]

/-- Witness for the amended C1 at the integer amount `3`. -/
theorem create_order_success_echoes_rounded_witness :
    (0 < jsRound (3 : ℚ)) ∧
    (createOrderRoute cfg1 prOk ⟨some 3, none, [itemT]⟩ st1).1 =
      .ok "ord_1" (3 : ℚ) "INR" "rzp_key" ∧
    (createOrderRoute cfg1 prOk ⟨some 3, none, [itemT]⟩ st1).2 = st1 := by
  have h := create_order_success_echoes_rounded cfg1 "rzp_key" "ord_1" (some "INR")
    ⟨some 3, none, [itemT]⟩ st1 3 rfl (by decide) (by decide) rfl (by decide)
    (by decide) (by decide)
  refine ⟨by decide, ?_, h.2.1⟩
  have he : ((jsRound (3 : ℚ) : ℤ) : ℚ) = 3 := h.2.2 (by decide)
  have h1 := h.1
  rw [he] at h1
  simpa [prOk, jsOrSD] using h1

/-! ## C5 — create-order error statuses and absence of mutation -/

/-- Claim C5: the `/create-order` response status follows the spec's error
table (`specCreateOrderStatus`), and the store state is returned untouched
in every outcome — the operation never mutates inventory or orders. -/
theorem create_order_status_table (c : Config) (pr : ProviderOut) (b : CreateBody) (s : St) :
    (createOrderRoute c pr b s).1.status = specCreateOrderStatus c pr b ∧
    (createOrderRoute c pr b s).2 = s := by
  refine ⟨?_, rfl⟩
  unfold createOrderRoute specCreateOrderStatus
  cases hb : b.amount with
  | none => rfl
  | some a =>
    by_cases h1 : a ≤ 0
    · simp [h1, CResp.status]
    · by_cases h2 : b.items = []
      · simp [h1, h2, CResp.status]
      · by_cases h3 : razorpayConfigured c = true
        · by_cases h4 : jsRound a ≤ 0
          · simp [h1, h2, h3, h4, CResp.status]
          · cases pr with
            | fail => simp [h1, h2, h3, h4, CResp.status]
            | ok id cur =>
              cases id with
              | none => simp [h1, h2, h3, h4, CResp.status, isTruthyS]
              | some oid =>
                by_cases h5 : oid = ""
                · simp [h1, h2, h3, h4, h5, CResp.status, isTruthyS]
                · cases hk : c.envKeyId with
                  | none => simp [h1, h2, h3, h4, h5, CResp.status, isTruthyS]
                  | some k =>
                    by_cases h6 : k = "" <;>
                      simp [h1, h2, h3, h4, h5, h6, CResp.status, isTruthyS]
        · simp [h1, h2, h3, CResp.status]

/-! ## C4 — pure verification path of `/verify` -/

/-- Claim C4: with the three identifiers present, a resolvable secret, a
matching signature and no item payload, `/verify` answers success and
returns the state untouched — no inventory mutation, no order record — and
a second identical call answers success again, still adding no order. -/
theorem verify_no_items_pure (c : Config) (u : User) (b : VerifyBody) (s : St) (sec : String)
    (h1 : strOk b.razorpayOrderId = true) (h2 : strOk b.razorpayPaymentId = true)
    (h3 : strOk b.razorpaySignature = true)
    (h4 : verifyKeySecret c = some sec)
    (h5 : hmacSha256Hex sec (b.razorpayOrderId.getD "" ++ "|" ++ b.razorpayPaymentId.getD "") =
      b.razorpaySignature.getD "")
    (h6 : b.items = []) :
    verifyRoute c u b s = (.okVerified "Payment verified successfully", s) ∧
    verifyRoute c u b ((verifyRoute c u b s).2) =
      (.okVerified "Payment verified successfully", s) ∧
    ((verifyRoute c u b s).2).orders = s.orders := by
  have hmain : verifyRoute c u b s = (.okVerified "Payment verified successfully", s) := by
    unfold verifyRoute
    rw [h4]
    simp [h1, h2, h3, h5, h6]
  refine ⟨hmain, ?_, ?_⟩
  · rw [hmain]
    exact hmain
  · rw [hmain]

/-- Witness for C4: the concrete pure-verification call. -/
theorem verify_no_items_pure_witness :
    strOk vbPure.razorpaySignature = true ∧ vbPure.items = [] ∧
    verifyRoute cfg1 user1 vbPure st1 = (.okVerified "Payment verified successfully", st1) ∧
    verifyRoute cfg1 user1 vbPure ((verifyRoute cfg1 user1 vbPure st1).2) =
      (.okVerified "Payment verified successfully", st1) := by
  have h := verify_no_items_pure cfg1 user1 vbPure st1 "rzp_secret"
    (by decide) (by decide) (by decide) (by decide) hmac_sig_lit rfl
  exact ⟨by decide, rfl, h.1, h.2.1⟩

/-! ## C7 — malformed pincode rejected before any decrement -/

/-- Claim C7: whenever the pincode fails `^\d{4,8}$` (including an absent
or empty pincode, which the presence gate catches first), `/verify` with a
non-empty item payload — given a resolvable secret, which earlier gates
need to get past 500 — and `/manual` both answer 400 and leave the store
untouched: the rejection happens before any inventory decrement. -/
theorem malformed_pincode_rejected (c : Config) (u : User) (vb : VerifyBody)
    (mb : ManualBody) (s : St) (sec : String)
    (hsec : verifyKeySecret c = some sec)
    (hvitems : vb.items ≠ [])
    (hvpin : matchesPin (vb.pincode.getD "") = false)
    (hmpin : matchesPin (mb.pincode.getD "") = false) :
    (verifyRoute c u vb s).1.status = 400 ∧ (verifyRoute c u vb s).2 = s ∧
    (manualRoute u mb s).1.status = 400 ∧ (manualRoute u mb s).2 = s := by
  have hman : (manualRoute u mb s).1.status = 400 ∧ (manualRoute u mb s).2 = s := by
    unfold manualRoute
    by_cases g1 : strOk mb.transactionId = true
    · by_cases g2 : mb.items = []
      · simp [g1, g2, MResp.status]
      · by_cases g3 : (isTruthyS mb.city && isTruthyS mb.state && isTruthyS mb.pincode) = true
        · simp [g1, g2, g3, hmpin, MResp.status]
        · simp [g1, g2, g3, MResp.status]
    · simp [g1, MResp.status]
  have hver : (verifyRoute c u vb s).1.status = 400 ∧ (verifyRoute c u vb s).2 = s := by
    unfold verifyRoute
    by_cases g1 : strOk vb.razorpayOrderId = true
    · by_cases g2 : strOk vb.razorpayPaymentId = true
      · by_cases g3 : strOk vb.razorpaySignature = true
        · rw [hsec]
          by_cases g4 : hmacSha256Hex sec
              (vb.razorpayOrderId.getD "" ++ "|" ++ vb.razorpayPaymentId.getD "") =
              vb.razorpaySignature.getD ""
          · by_cases g5 :
                (isTruthyS vb.city && isTruthyS vb.state && isTruthyS vb.pincode) = true
            · simp [g1, g2, g3, g4, g5, hvitems, hvpin, VResp.status]
            · simp [g1, g2, g3, g4, g5, hvitems, VResp.status]
          · simp [g1, g2, g3, g4, VResp.status]
        · simp [g1, g2, g3, VResp.status]
      · simp [g1, g2, VResp.status]
    · simp [g1, VResp.status]
  exact ⟨hver.1, hver.2, hman.1, hman.2⟩

/-- Witness for C7 at the malformed pincode `12ab` on both routes. -/
theorem malformed_pincode_rejected_witness :
    matchesPin "12ab" = false ∧
    (verifyRoute cfg1 user1
      ⟨some "oid", some "pid", some "bad-sig", [itemT], none, none, none, none,
       some "Pune", some "MH", some "12ab"⟩ st1).1.status = 400 ∧
    (verifyRoute cfg1 user1
      ⟨some "oid", some "pid", some "bad-sig", [itemT], none, none, none, none,
       some "Pune", some "MH", some "12ab"⟩ st1).2 = st1 ∧
    (manualRoute user1
      ⟨some "TXN9", some 100, none, [itemT], none, none, none,
       some "Pune", some "MH", some "12ab"⟩ st1).1.status = 400 ∧
    (manualRoute user1
      ⟨some "TXN9", some 100, none, [itemT], none, none, none,
       some "Pune", some "MH", some "12ab"⟩ st1).2 = st1 := by
  have h := malformed_pincode_rejected cfg1 user1
    ⟨some "oid", some "pid", some "bad-sig", [itemT], none, none, none, none,
     some "Pune", some "MH", some "12ab"⟩
    ⟨some "TXN9", some 100, none, [itemT], none, none, none,
     some "Pune", some "MH", some "12ab"⟩ st1 "rzp_secret"
    (by decide) (by decide) (by decide) (by decide)
  exact ⟨by decide, h.1, h.2.1, h.2.2.1, h.2.2.2⟩

/-! ## C2 — mid-batch insufficiency: 409, no rollback -/

/-- A failing step after a successfully processed prefix fails the whole
loop with the same payload, and the store at failure is the store the
prefix produced — the earlier decrements stay. -/
theorem decrementItems_fail_after_prefix {m iid : String} {q : ℚ} {bad : Item}
    {rest : List Item} :
    ∀ {ps ps1 : List Product} (pre : List Item),
      decrementItems ps pre = .ok ps1 → stepItem ps1 bad = .fail m iid q →
      decrementItems ps (pre ++ bad :: rest) = .fail m iid q ps1 := by
  intro ps ps1 pre
  induction pre generalizing ps with
  | nil =>
    intro hok hbad
    simp only [decrementItems] at hok
    injection hok with hok
    subst hok
    simp [decrementItems, hbad]
  | cons it pre ih =>
    intro hok hbad
    simp only [decrementItems, List.cons_append] at hok ⊢
    cases hstep : stepItem ps it with
    | ok ps2 =>
      rw [hstep] at hok
      exact ih hok hbad
    | fail m2 i2 q2 =>
      rw [hstep] at hok
      exact DecRes.noConfusion hok

/-- What a failing step means: the item resolved to a product id, the
product was found, the available quantity `q` named in the payload is less
than the requested quantity, and the message names the product title — with
the size code appended and `q` the qty of the matching size entry on the
per-size branch, or `q = stock || 0` on the flat branch. -/
theorem stepItem_fail_elim {ps : List Product} {it : Item} {m iid : String} {q : ℚ}
    (h : stepItem ps it = .fail m iid q) :
    pidOf it = some iid ∧
    ∃ p, findProduct ps iid = some p ∧ q < reqQty it.qty ∧
      ((p.trackInventoryBySize = true ∧ isTruthyS it.size = true ∧
        m = "Insufficient stock for " ++ p.title ++ " size " ++ it.size.getD "" ∧
        ∃ i, sizeIdx p.sizeInventory (it.size.getD "") = some i ∧
          q = (p.sizeInventory.getD i ⟨"", 0⟩).qty) ∨
       (p.trackInventoryBySize = false ∧
        m = "Insufficient stock for " ++ p.title ∧ q = jsOrQ0 p.stock)) := by
  unfold stepItem at h
  split at h
  · exact StepRes.noConfusion h
  next pid heqpid =>
    split at h
    · exact StepRes.noConfusion h
    next p heqp =>
      split at h
      next hbs =>
        obtain ⟨htr, hsz⟩ := Bool.and_eq_true_iff.mp hbs
        split at h
        · exact StepRes.noConfusion h
        next i heqi =>
          split at h
          next hlt =>
            injection h with h1 h2 h3
            subst h1; subst h2; subst h3
            exact ⟨heqpid, p, heqp, hlt, .inl ⟨htr, hsz, rfl, i, heqi, rfl⟩⟩
          next hlt => exact StepRes.noConfusion h
      next hbs =>
        split at h
        next hflat =>
          have htr : p.trackInventoryBySize = false := by simpa using hflat
          split at h
          next hlt =>
            injection h with h1 h2 h3
            subst h1; subst h2; subst h3
            exact ⟨heqpid, p, heqp, hlt, .inr ⟨htr, rfl, rfl⟩⟩
          next hlt => exact StepRes.noConfusion h
        next hflat => exact StepRes.noConfusion h

/-- Claim C2: when some item of the batch, after earlier items already had
their decrements persisted, finds insufficient stock, both checkout routes
abort the whole request with a 409 response that names the product (and
size, when per-size) and carries the available quantity — and the store
keeps the decrements the earlier items applied (no rollback). -/
theorem checkout_midbatch_conflict_no_rollback
    (c : Config) (u : User) (vb : VerifyBody) (mb : ManualBody) (s : St) (sec : String)
    (pre rest : List Item) (bad : Item) (ps1 : List Product) (m iid : String) (q : ℚ)
    (hpre : decrementItems s.products pre = .ok ps1)
    (hbad : stepItem ps1 bad = .fail m iid q)
    (h1 : strOk vb.razorpayOrderId = true) (h2 : strOk vb.razorpayPaymentId = true)
    (h3 : strOk vb.razorpaySignature = true) (h4 : verifyKeySecret c = some sec)
    (h5 : hmacSha256Hex sec
        (vb.razorpayOrderId.getD "" ++ "|" ++ vb.razorpayPaymentId.getD "") =
      vb.razorpaySignature.getD "")
    (hvi : vb.items = pre ++ bad :: rest)
    (hvc : isTruthyS vb.city = true) (hvs : isTruthyS vb.state = true)
    (hvp : isTruthyS vb.pincode = true) (hvr : matchesPin (vb.pincode.getD "") = true)
    (hmt : strOk mb.transactionId = true) (hmi : mb.items = pre ++ bad :: rest)
    (hmc : isTruthyS mb.city = true) (hms : isTruthyS mb.state = true)
    (hmp : isTruthyS mb.pincode = true) (hmr : matchesPin (mb.pincode.getD "") = true) :
    verifyRoute c u vb s = (.stockConflict m iid q, ⟨ps1, s.orders⟩) ∧
    manualRoute u mb s = (.stockConflict m iid q, ⟨ps1, s.orders⟩) ∧
    pidOf bad = some iid ∧
    (∃ p, findProduct ps1 iid = some p ∧ q < reqQty bad.qty ∧
      ((p.trackInventoryBySize = true ∧ isTruthyS bad.size = true ∧
        m = "Insufficient stock for " ++ p.title ++ " size " ++ bad.size.getD "" ∧
        ∃ i, sizeIdx p.sizeInventory (bad.size.getD "") = some i ∧
          q = (p.sizeInventory.getD i ⟨"", 0⟩).qty) ∨
       (p.trackInventoryBySize = false ∧
        m = "Insufficient stock for " ++ p.title ∧ q = jsOrQ0 p.stock))) := by
  have hdec : decrementItems s.products (pre ++ bad :: rest) = .fail m iid q ps1 :=
    decrementItems_fail_after_prefix pre hpre hbad
  have helim := stepItem_fail_elim hbad
  have hver : verifyRoute c u vb s = (.stockConflict m iid q, ⟨ps1, s.orders⟩) := by
    unfold verifyRoute
    rw [h4]
    simp [h1, h2, h3, h5, hvi, hvc, hvs, hvp, hvr, hdec]
  have hman : manualRoute u mb s = (.stockConflict m iid q, ⟨ps1, s.orders⟩) := by
    unfold manualRoute
    simp [hmt, hmi, hmc, hms, hmp, hmr, hdec]
  exact ⟨hver, hman, helim.1, helim.2⟩

/-- Witness for C2: item one takes two of the five `P1`; item two asks ten
of `P2` (stock one) — 409 names `Cap`, carries available quantity `1`, and
the store keeps `P1` at three. -/
theorem checkout_midbatch_conflict_no_rollback_witness :
    decrementItems st1.products [itemT] = .ok [prodT3, prodC] ∧
    stepItem [prodT3, prodC] itemBad = .fail "Insufficient stock for Cap" "P2" 1 ∧
    verifyRoute cfg1 user1
      ⟨some "oid", some "pid", some sigLit, [itemT, itemBad], some 250, none, none,
       none, some "Pune", some "MH", some "411001"⟩ st1 =
      (.stockConflict "Insufficient stock for Cap" "P2" 1, ⟨[prodT3, prodC], []⟩) ∧
    manualRoute user1
      ⟨some "TXN1", some 250, none, [itemT, itemBad], none, none, none,
       some "Pune", some "MH", some "411001"⟩ st1 =
      (.stockConflict "Insufficient stock for Cap" "P2" 1, ⟨[prodT3, prodC], []⟩) := by
  have h := checkout_midbatch_conflict_no_rollback cfg1 user1
    ⟨some "oid", some "pid", some sigLit, [itemT, itemBad], some 250, none, none,
     none, some "Pune", some "MH", some "411001"⟩
    ⟨some "TXN1", some 250, none, [itemT, itemBad], none, none, none,
     some "Pune", some "MH", some "411001"⟩ st1 "rzp_secret"
    [itemT] [] itemBad [prodT3, prodC] "Insufficient stock for Cap" "P2" 1
    (by decide) (by decide) (by decide) (by decide) (by decide) (by decide)
    hmac_sig_lit rfl (by decide) (by decide) (by decide) (by decide)
    (by decide) rfl (by decide) (by decide) (by decide) (by decide)
  exact ⟨by decide, by decide, h.1, h.2.1⟩

/-! ## C6 — flat stock: exact quantity empties, one more conflicts -/

/-- Claim C6 as stated fails at `q = 0`: a single line item with `qty: 0`
against a flat stock of `0` is coerced to quantity one by
`Number(item.qty || 1)`, so the request answers 409 with available
quantity `0` instead of succeeding. -/
theorem flat_stock_qty_zero_conflict :
    (manualRoute user1 mbZ ⟨[prodZ], []⟩).1 =
      .stockConflict "Insufficient stock for Zed" "PZ" 0 ∧
    (manualRoute user1 mbZ ⟨[prodZ], []⟩).1.status = 409 ∧
    (manualRoute user1 mbZ ⟨[prodZ], []⟩).2 = ⟨[prodZ], []⟩ := by
  decide

/-- Claim C6 (amended to `1 ≤ q`): for a flat-stock product with stock `q`,
a checkout through either route whose single line item asks `qty q`
succeeds and leaves the stock at `0`; asking `q + 1` answers 409 carrying
available quantity `q` and leaves the store untouched. -/
theorem flat_stock_exact_and_over
    (q : Nat) (hq : 1 ≤ q)
    (p : Product) (htrack : p.trackInventoryBySize = false) (hstock : p.stock = (q : ℚ))
    (pid : String) (itE itO : Item)
    (hpidE : pidOf itE = some pid) (hqtyE : itE.qty = .num (q : ℚ))
    (hpidO : pidOf itO = some pid) (hqtyO : itO.qty = .num ((q : ℚ) + 1))
    (s : St) (hfind : findProduct s.products pid = some p)
    (c : Config) (u : User) (sec : String) (vb : VerifyBody) (mb : ManualBody)
    (h1 : strOk vb.razorpayOrderId = true) (h2 : strOk vb.razorpayPaymentId = true)
    (h3 : strOk vb.razorpaySignature = true) (h4 : verifyKeySecret c = some sec)
    (h5 : hmacSha256Hex sec
        (vb.razorpayOrderId.getD "" ++ "|" ++ vb.razorpayPaymentId.getD "") =
      vb.razorpaySignature.getD "")
    (hvc : isTruthyS vb.city = true) (hvs : isTruthyS vb.state = true)
    (hvp : isTruthyS vb.pincode = true) (hvr : matchesPin (vb.pincode.getD "") = true)
    (hmt : strOk mb.transactionId = true)
    (hmc : isTruthyS mb.city = true) (hms : isTruthyS mb.state = true)
    (hmp : isTruthyS mb.pincode = true) (hmr : matchesPin (mb.pincode.getD "") = true) :
    ((verifyRoute c u { vb with items := [itE] } s).1.status = 200 ∧
     (verifyRoute c u { vb with items := [itE] } s).2.products =
       setById s.products { p with stock := 0 }) ∧
    ((manualRoute u { mb with items := [itE] } s).1.status = 200 ∧
     (manualRoute u { mb with items := [itE] } s).2.products =
       setById s.products { p with stock := 0 }) ∧
    verifyRoute c u { vb with items := [itO] } s =
      (.stockConflict ("Insufficient stock for " ++ p.title) pid (q : ℚ), s) ∧
    manualRoute u { mb with items := [itO] } s =
      (.stockConflict ("Insufficient stock for " ++ p.title) pid (q : ℚ), s) := by
  have hq0 : (0 : ℚ) < (q : ℚ) := by exact_mod_cast hq
  have hqne : ((q : ℚ)) ≠ 0 := ne_of_gt hq0
  have hq1ne : ((q : ℚ) + 1) ≠ 0 := by positivity
  have hstepE : stepItem s.products itE = .ok (setById s.products { p with stock := 0 }) := by
    rw [stepItem_flat hpidE hfind htrack, hqtyE, reqQty_num hqne, jsOrQ0_eq, hstock]
    simp
  have hdecE : decrementItems s.products [itE] =
      .ok (setById s.products { p with stock := 0 }) := by
    simp [decrementItems, hstepE]
  have hstepO : stepItem s.products itO =
      .fail ("Insufficient stock for " ++ p.title) pid (q : ℚ) := by
    rw [stepItem_flat hpidO hfind htrack, hqtyO, reqQty_num hq1ne, jsOrQ0_eq, hstock]
    simp [lt_add_one]
  have hdecO : decrementItems s.products [itO] =
      .fail ("Insufficient stock for " ++ p.title) pid (q : ℚ) s.products := by
    simp [decrementItems, hstepO]
  refine ⟨⟨?_, ?_⟩, ⟨?_, ?_⟩, ?_, ?_⟩
  · unfold verifyRoute
    rw [h4]
    simp [h1, h2, h3, h5, hvc, hvs, hvp, hvr, hdecE, VResp.status]
  · unfold verifyRoute
    rw [h4]
    simp [h1, h2, h3, h5, hvc, hvs, hvp, hvr, hdecE]
  · unfold manualRoute
    simp [hmt, hmc, hms, hmp, hmr, hdecE, MResp.status]
  · unfold manualRoute
    simp [hmt, hmc, hms, hmp, hmr, hdecE]
  · unfold verifyRoute
    rw [h4]
    simp [h1, h2, h3, h5, hvc, hvs, hvp, hvr, hdecO]
  · unfold manualRoute
    simp [hmt, hmc, hms, hmp, hmr, hdecO]

set_option maxRecDepth 100000 in
/-- Witness for the amended C6 at stock two: asking two empties the stock,
asking three conflicts with available quantity two. -/
theorem flat_stock_exact_and_over_witness :
    (1 ≤ 2) ∧
    ((verifyRoute cfg1 user1 { vbBase with items := [itemE2] } stQ).1.status = 200 ∧
     (verifyRoute cfg1 user1 { vbBase with items := [itemE2] } stQ).2.products =
       setById stQ.products { prodQ2 with stock := 0 }) ∧
    ((manualRoute user1 { mbBase with items := [itemE2] } stQ).1.status = 200 ∧
     (manualRoute user1 { mbBase with items := [itemE2] } stQ).2.products =
       setById stQ.products { prodQ2 with stock := 0 }) ∧
    verifyRoute cfg1 user1 { vbBase with items := [itemO3] } stQ =
      (.stockConflict ("Insufficient stock for " ++ prodQ2.title) "PQ" ((2 : Nat) : ℚ), stQ) ∧
    manualRoute user1 { mbBase with items := [itemO3] } stQ =
      (.stockConflict ("Insufficient stock for " ++ prodQ2.title) "PQ" ((2 : Nat) : ℚ), stQ) := by
  have h := flat_stock_exact_and_over 2 (by decide) prodQ2 (by decide) (by decide)
    "PQ" itemE2 itemO3 (by decide) (by decide) (by decide) (by decide)
    stQ (by decide) cfg1 user1 "rzp_secret" vbBase mbBase
    (by decide) (by decide) (by decide) (by decide) hmac_sig_lit
    (by decide) (by decide) (by decide) (by decide) (by decide)
    (by decide) (by decide) (by decide) (by decide)
  exact ⟨by decide, h.1, h.2.1, h.2.2.1, h.2.2.2⟩

/-! ## C9 — by-size product: missing or unknown size is silently skipped -/

/-- Claim C9: a line item whose product tracks inventory by size is
silently skipped — no stock mutation, no error, processing moves on to the
remaining items — whenever the item names no size (falsy `item.size`) or a
size code absent from the product's `sizeInventory`. -/
theorem sized_item_without_match_skipped
    (ps : List Product) (it : Item) (rest : List Item) (pid : String) (p : Product)
    (hpid : pidOf it = some pid) (hfind : findProduct ps pid = some p)
    (htrack : p.trackInventoryBySize = true)
    (hmiss : isTruthyS it.size = false ∨
      sizeIdx p.sizeInventory (it.size.getD "") = none) :
    stepItem ps it = .ok ps ∧
    decrementItems ps (it :: rest) = decrementItems ps rest := by
  have hstep : stepItem ps it = .ok ps := by
    cases hmiss with
    | inl hsz =>
      simp only [stepItem, hpid, hfind, htrack, hsz]
      simp
    | inr hidx =>
      by_cases hsz : isTruthyS it.size = true
      · simp only [stepItem, hpid, hfind, htrack, hsz, hidx]
        simp
      · have hsz0 : isTruthyS it.size = false := by simpa using hsz
        simp only [stepItem, hpid, hfind, htrack, hsz0]
        simp
  exact ⟨hstep, by simp [decrementItems, hstep]⟩

/-- Witness for C9: against `PS`, an item with no size and an item with the
unknown size `XXL` both leave the store as it was and drop out of the
loop. -/
theorem sized_item_without_match_skipped_witness :
    prodS.trackInventoryBySize = true ∧
    stepItem [prodS] itemNoSize = .ok [prodS] ∧
    decrementItems [prodS] [itemNoSize, itemT] = decrementItems [prodS] [itemT] ∧
    stepItem [prodS] itemBadSize = .ok [prodS] ∧
    decrementItems [prodS] [itemBadSize, itemT] = decrementItems [prodS] [itemT] := by
  have h1 := sized_item_without_match_skipped [prodS] itemNoSize [itemT] "PS" prodS
    rfl (by decide) (by decide) (.inl (by decide))
  have h2 := sized_item_without_match_skipped [prodS] itemBadSize [itemT] "PS" prodS
    rfl (by decide) (by decide) (.inr (by decide))
  exact ⟨by decide, h1.1, h1.2, h2.1, h2.2⟩

/-! ## C10 — falsy qty is a request for one unit -/

/-- `Number(1 || 1) = 1`. -/
theorem reqQty_one : reqQty (.num 1) = 1 := reqQty_num one_ne_zero

/-- Claim C10: a falsy `qty` (absent, `0`, `NaN`, `null`, `false`) is a
request for quantity one — `Number(item.qty || 1)` yields `1`, and the
whole per-item step (stock comparison and decrement alike) behaves exactly
as for the same item with `qty: 1`. -/
theorem falsy_qty_requests_one (it : Item) (h : truthy it.qty = false) :
    reqQty it.qty = 1 ∧
    ∀ ps : List Product, stepItem ps it = stepItem ps { it with qty := .num 1 } := by
  refine ⟨reqQty_falsy h, fun ps => ?_⟩
  unfold stepItem
  simp [pidOf, reqQty_falsy h, reqQty_one]

/-- Witness for C10 at `qty: 0`: the step against the zero-stock product
equals the step with `qty: 1`. -/
theorem falsy_qty_requests_one_witness :
    truthy itemZ.qty = false ∧ reqQty itemZ.qty = 1 ∧
    stepItem [prodZ] itemZ = stepItem [prodZ] { itemZ with qty := .num 1 } := by
  have h := falsy_qty_requests_one itemZ (by decide)
  exact ⟨by decide, h.1, h.2 [prodZ]⟩

/-! ## C8 — quantities stay non-negative integers -/

/-- Subtracting an integer-valued quantity that does not exceed an
integral non-negative quantity keeps it an integral non-negative
quantity. -/
theorem goodQ_sub {a b : ℚ} (ha : GoodQ a) (hb : b.den = 1) (hle : b ≤ a) :
    GoodQ (a - b) := by
  obtain ⟨hda, hnn⟩ := ha
  have hna : ((a.num : ℤ) : ℚ) = a := (Rat.den_eq_one_iff a).mp hda
  have hnb : ((b.num : ℤ) : ℚ) = b := (Rat.den_eq_one_iff b).mp hb
  constructor
  · rw [← hna, ← hnb, ← Int.cast_sub]
    exact Rat.den_intCast _
  · linarith

/-- `Number(item.qty || 1)` of an integer-valued `qty` is an integer. -/
theorem reqQty_den_one {v : JSVal} (h : qtyIntV v) : (reqQty v).den = 1 := by
  cases v with
  | num q =>
    by_cases h0 : q = 0
    · subst h0; decide
    · rw [reqQty_num h0]; exact h
  | nan => decide
  | undef => decide
  | jnull => decide
  | jbool b => cases b <;> decide

/-- A member of the saved store was already a member or is the saved
document. -/
theorem mem_setById {ps : List Product} {pnew x : Product} (h : x ∈ setById ps pnew) :
    x ∈ ps ∨ x = pnew := by
  induction ps with
  | nil => simp [setById] at h
  | cons p ps ih =>
    unfold setById at h
    by_cases hid : (p.id == pnew.id) = true
    · rw [if_pos hid] at h
      rcases List.mem_cons.mp h with h | h
      · exact .inr h
      · exact .inl (List.mem_cons_of_mem _ h)
    · rw [if_neg hid] at h
      rcases List.mem_cons.mp h with h | h
      · exact .inl (h ▸ List.mem_cons_self _ _)
      · rcases ih h with h2 | h2
        · exact .inl (List.mem_cons_of_mem _ h2)
        · exact .inr h2

/-- One step of the decrement loop preserves the store invariant when the
item's `qty` is integer-valued. -/
theorem stepItem_good {ps ps2 : List Product} {it : Item}
    (hg : GoodPs ps) (hq : qtyIntV it.qty)
    (h : stepItem ps it = .ok ps2) : GoodPs ps2 := by
  have hreq : (reqQty it.qty).den = 1 := reqQty_den_one hq
  unfold stepItem at h
  split at h
  · injection h with h; subst h; exact hg
  next pid heqpid =>
    split at h
    · injection h with h; subst h; exact hg
    next p heqp =>
      have hgp : GoodProduct p := hg p (List.mem_of_find?_eq_some heqp)
      split at h
      next hbs =>
        split at h
        · injection h with h; subst h; exact hg
        next i heqi =>
          split at h
          next hlt => exact StepRes.noConfusion h
          next hlt =>
            injection h with h
            subst h
            have hqe : GoodQ (p.sizeInventory.getD i ⟨"", 0⟩).qty := by
              by_cases hi : i < p.sizeInventory.length
              · rw [List.getD_eq_getElem _ _ hi]
                exact hgp.2 _ (List.getElem_mem hi)
              · have hlen : p.sizeInventory.length ≤ i := Nat.le_of_not_lt hi
                rw [List.getD_eq_getElem?_getD, List.getElem?_eq_none hlen]
                exact ⟨rfl, le_refl 0⟩
            have hnew : GoodQ ((p.sizeInventory.getD i ⟨"", 0⟩).qty - reqQty it.qty) :=
              goodQ_sub hqe hreq (not_lt.mp hlt)
            intro x hx
            rcases mem_setById hx with hmem | hx
            · exact hg x hmem
            · subst hx
              refine ⟨hgp.1, ?_⟩
              intro e he
              rcases List.mem_or_eq_of_mem_set he with hmem | he
              · exact hgp.2 e hmem
              · subst he; exact hnew
      next hbs =>
        split at h
        next hflat =>
          split at h
          next hlt => exact StepRes.noConfusion h
          next hlt =>
            injection h with h
            subst h
            rw [jsOrQ0_eq] at hlt
            have hnew : GoodQ (p.stock - reqQty it.qty) :=
              goodQ_sub hgp.1 hreq (not_lt.mp hlt)
            intro x hx
            rcases mem_setById hx with hmem | hx
            · exact hg x hmem
            · subst hx
              exact ⟨hnew, hgp.2⟩
        next hflat =>
          injection h with h; subst h; exact hg

/-- The whole decrement loop preserves the store invariant, whether it
runs to completion or aborts at an insufficient item. -/
theorem decrementItems_good (items : List Item) :
    ∀ {ps : List Product}, GoodPs ps → (∀ it ∈ items, qtyIntV it.qty) →
      GoodPs (decResState (decrementItems ps items)) := by
  induction items with
  | nil =>
    intro ps hg _
    simpa [decrementItems, decResState] using hg
  | cons it rest ih =>
    intro ps hg hqs
    simp only [decrementItems]
    cases hstep : stepItem ps it with
    | ok ps1 =>
      exact ih (stepItem_good hg (hqs it (List.mem_cons_self it rest)) hstep)
        (fun x hx => hqs x (List.mem_cons_of_mem it hx))
    | fail m iid q =>
      simpa [decResState] using hg

/-- Claim C8 as stated fails: against the all-integer store `st1`, a valid
manual checkout asking half a unit of `P1` succeeds and leaves `P1` with a
fractional stock of `9/2` — the request quantity is never checked for
integrality. -/
theorem checkout_fractional_qty_breaks_integrality :
    GoodPs st1.products ∧
    (manualRoute user1 mbHalf st1).1.status = 200 ∧
    ¬ GoodPs (manualRoute user1 mbHalf st1).2.products := by
  decide

/-- Claim C8 (amended to integer-valued request quantities): given a store
whose flat stocks and per-size quantities are all non-negative integers and
a request whose numeric `qty` fields are integers (absent or otherwise
falsy `qty` allowed), both routes leave every stored quantity a
non-negative integer, whether they succeed or fail at any gate. -/
theorem checkout_preserves_nonneg_integer_stock
    (c : Config) (u : User) (vb : VerifyBody) (mb : ManualBody) (s : St)
    (hg : GoodPs s.products)
    (hv : ∀ it ∈ vb.items, qtyIntV it.qty)
    (hm : ∀ it ∈ mb.items, qtyIntV it.qty) :
    GoodPs (verifyRoute c u vb s).2.products ∧
    GoodPs (manualRoute u mb s).2.products := by
  have hdecv := decrementItems_good vb.items hg hv
  have hdecm := decrementItems_good mb.items hg hm
  constructor
  · unfold verifyRoute
    by_cases g1 : strOk vb.razorpayOrderId = true
    · by_cases g2 : strOk vb.razorpayPaymentId = true
      · by_cases g3 : strOk vb.razorpaySignature = true
        · cases hsec : verifyKeySecret c with
          | none => simp [g1, g2, g3]; exact hg
          | some sec =>
            by_cases g4 : hmacSha256Hex sec
                (vb.razorpayOrderId.getD "" ++ "|" ++ vb.razorpayPaymentId.getD "") =
                vb.razorpaySignature.getD ""
            · by_cases g5 : vb.items = []
              · simp [g1, g2, g3, g4, g5]; exact hg
              · by_cases g6 :
                    (isTruthyS vb.city && isTruthyS vb.state && isTruthyS vb.pincode) = true
                · by_cases g7 : matchesPin (vb.pincode.getD "") = true
                  · cases hd : decrementItems s.products vb.items with
                    | ok ps1 =>
                      rw [hd] at hdecv
                      simp only [decResState] at hdecv
                      simp [g1, g2, g3, g4, g5, g6, g7, hd]
                      exact hdecv
                    | fail m iid q ps1 =>
                      rw [hd] at hdecv
                      simp only [decResState] at hdecv
                      simp [g1, g2, g3, g4, g5, g6, g7, hd]
                      exact hdecv
                  · simp [g1, g2, g3, g4, g5, g6, g7]; exact hg
                · simp [g1, g2, g3, g4, g5, g6]; exact hg
            · simp [g1, g2, g3, g4]; exact hg
        · simp [g1, g2, g3]; exact hg
      · simp [g1, g2]; exact hg
    · simp [g1]; exact hg
  · unfold manualRoute
    by_cases g1 : strOk mb.transactionId = true
    · by_cases g2 : mb.items = []
      · simp [g1, g2]; exact hg
      · by_cases g3 :
            (isTruthyS mb.city && isTruthyS mb.state && isTruthyS mb.pincode) = true
        · by_cases g4 : matchesPin (mb.pincode.getD "") = true
          · cases hd : decrementItems s.products mb.items with
            | ok ps1 =>
              rw [hd] at hdecm
              simp only [decResState] at hdecm
              simp [g1, g2, g3, g4, hd]
              exact hdecm
            | fail m iid q ps1 =>
              rw [hd] at hdecm
              simp only [decResState] at hdecm
              simp [g1, g2, g3, g4, hd]
              exact hdecm
          · simp [g1, g2, g3, g4]; exact hg
        · simp [g1, g2, g3]; exact hg
    · simp [g1]; exact hg

/-- Witness for the amended C8: a concrete checkout of two units of `P1`
through both routes keeps the store all-integer and non-negative. -/
theorem checkout_preserves_nonneg_integer_stock_witness :
    GoodPs st1.products ∧
    GoodPs (verifyRoute cfg1 user1 { vbBase with items := [itemT] } st1).2.products ∧
    GoodPs (manualRoute user1 { mbBase with items := [itemT] } st1).2.products := by
  have h := checkout_preserves_nonneg_integer_stock cfg1 user1
    { vbBase with items := [itemT] } { mbBase with items := [itemT] } st1
    (by decide) (by decide) (by decide)
  exact ⟨by decide, h.1, h.2⟩

/-! ## The signature gate (context for claim C3)

The gate itself is a pure exact-equality comparison with the recomputed
digest, so a supplied signature that differs from the digest in any way —
in particular in one character — is rejected with a 400 response and never
an exception.  Whether a single-character change of the order id or the
payment id always changes the digest is an instance of collision-freedom
of HMAC-SHA-256 on the mutated message pair, which is neither provable nor
refutable here. -/

/-- Any supplied signature other than the recomputed digest is answered
with 400 `Invalid payment signature`, the state untouched. -/
theorem verify_mismatched_signature_rejected (c : Config) (u : User) (b : VerifyBody)
    (s : St) (sec : String)
    (h1 : strOk b.razorpayOrderId = true) (h2 : strOk b.razorpayPaymentId = true)
    (h3 : strOk b.razorpaySignature = true)
    (h4 : verifyKeySecret c = some sec)
    (h5 : hmacSha256Hex sec (b.razorpayOrderId.getD "" ++ "|" ++ b.razorpayPaymentId.getD "") ≠
      b.razorpaySignature.getD "") :
    verifyRoute c u b s = (.badReq "Invalid payment signature", s) := by
  unfold verifyRoute
  rw [h4]
  simp [h1, h2, h3, h5]

end Uni
